import Mathlib

/-!
Verification development for the Shot-Clock repository.

The Python sources are shallowly embedded:
* machine floats of pandas columns become `PValue` (a rational number, NaN,
  or a signed infinity), with the pandas division / `fillna` / `mean` rules
  spelled out explicitly;
* dataframes become lists of structures, column operations become maps and
  folds over those lists;
* Python substring tests (`x in y`) become an executable infix test on
  character lists;
* the scraping orchestrator's decisions become pure functions over records
  describing one fetched page (tables, captured API responses, payload text).

Definitions are translated from the repository sources
(`src/data_loader.py`, `src/nba_stats.py`, `app.py`,
`data/scrape_shotclock_data.py`, `data/data_extraction.py`); the theorems at
the end settle the specification claims against them.
-/

namespace ShotClock

/-! ## Strings: Python `in` (substring) and `str.lower` -/

/-- Boolean test: the first character list starts the second one. -/
def leadsB : List Char → List Char → Bool
  | [], _ => true
  | _ :: _, [] => false
  | a :: as, b :: bs => a == b && leadsB as bs

/-- Boolean test: the first character list occurs contiguously inside the
second one. -/
def occursB : List Char → List Char → Bool
  | n, [] => leadsB n []
  | n, b :: bs => leadsB n (b :: bs) || occursB n bs

/-- Python's `needle in hay` on strings. -/
def substrB (needle hay : String) : Bool :=
  occursB needle.data hay.data

/-- ASCII lowercasing of one character. -/
def lowerChar (c : Char) : Char :=
  match c with
  | 'A' => 'a' | 'B' => 'b' | 'C' => 'c' | 'D' => 'd' | 'E' => 'e' | 'F' => 'f'
  | 'G' => 'g' | 'H' => 'h' | 'I' => 'i' | 'J' => 'j' | 'K' => 'k' | 'L' => 'l'
  | 'M' => 'm' | 'N' => 'n' | 'O' => 'o' | 'P' => 'p' | 'Q' => 'q' | 'R' => 'r'
  | 'S' => 's' | 'T' => 't' | 'U' => 'u' | 'V' => 'v' | 'W' => 'w' | 'X' => 'x'
  | 'Y' => 'y' | 'Z' => 'z'
  | other => other

/-- Python's `str.lower` (the strings handled by this program are ASCII, so
character-wise ASCII lowering models it). -/
def pyLower (s : String) : String :=
  String.mk (s.data.map lowerChar)

theorem leadsB_iff (n h : List Char) : leadsB n h = true ↔ n <+: h := by
  induction n generalizing h with
  | nil => simp [leadsB]
  | cons a as ih =>
    cases h with
    | nil => simp [leadsB]
    | cons b bs =>
      simp only [leadsB, Bool.and_eq_true, beq_iff_eq, List.cons_prefix_cons, ih]

theorem occursB_iff (n h : List Char) : occursB n h = true ↔ n <:+: h := by
  induction h with
  | nil =>
    simp only [occursB, leadsB_iff, List.prefix_nil, List.infix_nil]
  | cons b bs ih =>
    simp only [occursB, Bool.or_eq_true, leadsB_iff, ih, List.infix_cons_iff]

theorem substrB_iff (n h : String) : substrB n h = true ↔ n.data <:+: h.data := by
  simp [substrB, occursB_iff]

/-- Substring containment composes: if `m` occurs in `n` and `n` occurs in
`h`, then `m` occurs in `h`. -/
theorem substrB_trans {m n h : String} (h₁ : substrB m n = true)
    (h₂ : substrB n h = true) : substrB m h = true := by
  rw [substrB_iff] at h₁ h₂ ⊢
  exact h₁.trans h₂

/-! ## `src/data_loader.py`: `map_action_to_play_type` -/

def pnrBallHandlerTokens : List String := ["pullup", "step back", "running pull"]

def pnrRollManTokens : List String := ["cutting", "alley oop", "putback", "tip"]

def isolationTokens : List String := ["fadeaway", "turnaround", "isolation"]

def driveKickTokens : List String := ["driving", "floating", "finger roll", "reverse layup"]

/-- `map_action_to_play_type` from `src/data_loader.py`. -/
def map_action_to_play_type (action_type : String) : String :=
  let action_lower := pyLower action_type
  if pnrBallHandlerTokens.any (fun x => substrB x action_lower) then "PnR Ball Handler"
  else if pnrRollManTokens.any (fun x => substrB x action_lower) then "PnR Roll Man"
  else if isolationTokens.any (fun x => substrB x action_lower) then "Isolation"
  else if driveKickTokens.any (fun x => substrB x action_lower) then "Drive & Kick"
  else if substrB ("jump shot") action_lower || substrB ("shot") action_lower then "Spot-Up"
  else "Other"

def playTypeCategories : List String :=
  ["PnR Ball Handler", "PnR Roll Man", "Isolation", "Drive & Kick", "Spot-Up", "Other"]

/-! ## Pandas float values

A pandas numeric cell is a double: a finite value, NaN (which also stands
for `pd.NA` after the replacements performed by this code base), or a signed
infinity.  Finite values are modelled exactly by rationals. -/

inductive PValue where
  | num (q : ℚ)
  | nan
  | inf
  | ninf
deriving DecidableEq, Repr, Inhabited

/-- Division of two finite floats, as pandas performs it on numeric columns:
`0/0` is NaN, `±x/0` is the correspondingly signed infinity. -/
def pdivRat (a b : ℚ) : PValue :=
  if b = 0 then
    if a = 0 then .nan else if 0 < a then .inf else .ninf
  else .num (a / b)

/-- Pandas division lifted to possibly-NaN/infinite cells. -/
def pdivP : PValue → PValue → PValue
  | .nan, _ => .nan
  | _, .nan => .nan
  | .num a, .num b => pdivRat a b
  | .inf, .num b => if b < 0 then .ninf else .inf
  | .ninf, .num b => if b < 0 then .inf else .ninf
  | .num _, .inf => .num 0
  | .num _, .ninf => .num 0
  | _, _ => .nan

/-- `Series.fillna(d)`: NaN cells become `d`, every other cell (including
infinities) is kept. -/
def fillna (d : ℚ) : PValue → PValue
  | .nan => .num d
  | v => v

/-- Multiplication of a cell by a positive scalar constant (the constants
used by this code base are 2, 3, 1/2 and 100). -/
def pmul (c : ℚ) : PValue → PValue
  | .num q => .num (c * q)
  | .nan => .nan
  | .inf => .inf
  | .ninf => .ninf

/-- Addition of two cells, with NaN propagation. -/
def padd : PValue → PValue → PValue
  | .nan, _ => .nan
  | _, .nan => .nan
  | .num a, .num b => .num (a + b)
  | .inf, .ninf => .nan
  | .ninf, .inf => .nan
  | .inf, _ => .inf
  | _, .inf => .inf
  | .ninf, _ => .ninf
  | _, .ninf => .ninf

/-- Pairwise NaN-skipping maximum (as used by `Series.max()`). -/
def pmax2 : PValue → PValue → PValue
  | .nan, y => y
  | x, .nan => x
  | .inf, _ => .inf
  | _, .inf => .inf
  | .ninf, y => y
  | x, .ninf => x
  | .num a, .num b => .num (max a b)

/-- `Series.max()`: NaN-skipping maximum of a column; NaN when the column is
empty or all-NaN. -/
def colMax (xs : List PValue) : PValue :=
  xs.foldr pmax2 .nan

/-- `pd.notna(m) and m > 1`, the test guarding frequency renormalisation. -/
def pGt1 : PValue → Bool
  | .num m => decide (1 < m)
  | .inf => true
  | _ => false

/-- Division of a column cell by the constant 100. -/
def pdiv100 : PValue → PValue
  | .num q => .num (q / 100)
  | v => v

/-- `Series.mean()` of a column: skips NaN cells; NaN when nothing remains.
A column holding a single signed infinity averages to that infinity, mixed
infinities average to NaN. -/
def pmean (xs : List PValue) : PValue :=
  if xs.contains .inf && xs.contains .ninf then .nan
  else if xs.contains .inf then .inf
  else if xs.contains .ninf then .ninf
  else
    let nums := xs.filterMap (fun v => match v with | .num q => some q | _ => none)
    if nums.isEmpty then .nan else .num (nums.sum / (nums.length : ℚ))

/-- `pd.to_numeric(col, errors="coerce")` on a raw cell: an unparseable cell
(`none`) becomes NaN. -/
def toNumeric : Option ℚ → PValue
  | some q => .num q
  | none => .nan

/-! ## `src/nba_stats.py` -/

/-- `safe_div` from `src/nba_stats.py`: `numerator.div(denominator)` followed
by replacing `pd.NA`, `inf` and `-inf` with `pd.NA`. -/
def safe_div (n d : PValue) : PValue :=
  match pdivP n d with
  | .inf => .nan
  | .ninf => .nan
  | .nan => .nan
  | v => v

def TEAM_ID : Nat := 1610612755

def SHOT_CLOCK_RANGES : List String :=
  ["24-22", "22-18 Very Early", "18-15 Early", "15-7 Average", "7-4 Late", "4-0 Very Late"]

def GENERAL_RANGES : List String :=
  ["Overall", "Catch and Shoot", "Pullups", "Less Than 10 ft"]

/-- One row of an upstream `leaguedashteamptshot` result set.  Numeric cells
are raw (`none` = a value `pd.to_numeric(errors="coerce")` cannot parse). -/
structure ApiRow where
  team_id : Nat
  team_name : String
  team_abbreviation : String
  gp : Option ℚ
  g : Option ℚ
  fga_frequency : Option ℚ
  fgm : Option ℚ
  fga : Option ℚ
  fg_pct : Option ℚ
  efg_pct : Option ℚ
  fg2a_frequency : Option ℚ
  fg2m : Option ℚ
  fg2a : Option ℚ
  fg2_pct : Option ℚ
  fg3a_frequency : Option ℚ
  fg3m : Option ℚ
  fg3a : Option ℚ
  fg3_pct : Option ℚ
deriving DecidableEq, Repr, Inhabited

/-- An `ApiRow` after the fetch loop tagged it with the partition it was
requested for (`frame["ShotClockRange"] = ...`, `frame["GeneralRange"] = ...`). -/
structure TaggedRow extends ApiRow where
  shotClockRange : String
  generalRange : String
deriving DecidableEq, Repr, Inhabited

/-- The body of the fetch loop of `fetch_shot_clock_breakdown`: per
`(general_range, shot_clock_range)` response, keep only rows of the
configured team, skip the partition when nothing remains, tag the survivors.
The responses are listed in request order. -/
def collectFrames (responses : List (String × String × List ApiRow)) : List TaggedRow :=
  responses.foldr
    (fun p acc =>
      let filtered := p.2.2.filter (fun r => r.team_id == TEAM_ID)
      if filtered.isEmpty then acc
      else (filtered.map (fun r =>
        { toApiRow := r, shotClockRange := p.2.1, generalRange := p.1 })) ++ acc)
    []

/-- One row of the canonical output of `_prepare_dataframe`. -/
structure PreparedRow where
  team_id : Nat
  team_name : String
  team_abbreviation : String
  season : String
  season_type : String
  shot_clock_range : String
  general_range : String
  games_played : Option ℚ
  games : Option ℚ
  fgm : PValue
  fga : PValue
  fg_pct : PValue
  efg_pct : PValue
  fg2m : PValue
  fg2a : PValue
  fg2_pct : PValue
  fg2a_frequency : PValue
  fg3m : PValue
  fg3a : PValue
  fg3_pct : PValue
  fg3a_frequency : PValue
  fga_frequency : PValue
  points : PValue
  points_per_shot : PValue
  fg3_rate : PValue
deriving DecidableEq, Repr, Inhabited

/-- Per-row part of `_prepare_dataframe`.  The three booleans record, per
frequency column, whether the observed column maximum exceeded 1 (in which
case the whole column is divided by 100). -/
def prepRow (divFga divFg2a divFg3a : Bool) (season season_type : String)
    (r : TaggedRow) : PreparedRow :=
  let fgm := toNumeric r.fgm
  let fga := toNumeric r.fga
  let fg2m := toNumeric r.fg2m
  let fg3m := toNumeric r.fg3m
  let fg3a := toNumeric r.fg3a
  let points := padd (pmul 2 fg2m) (pmul 3 fg3m)
  { team_id := r.team_id
    team_name := r.team_name
    team_abbreviation := r.team_abbreviation
    season := season
    season_type := season_type
    shot_clock_range := r.shotClockRange
    general_range := r.generalRange
    games_played := r.gp
    games := r.g
    fgm := fgm
    fga := fga
    fg_pct := toNumeric r.fg_pct
    efg_pct := toNumeric r.efg_pct
    fg2m := fg2m
    fg2a := toNumeric r.fg2a
    fg2_pct := toNumeric r.fg2_pct
    fg2a_frequency :=
      if divFg2a then pdiv100 (toNumeric r.fg2a_frequency) else toNumeric r.fg2a_frequency
    fg3m := fg3m
    fg3a := fg3a
    fg3_pct := toNumeric r.fg3_pct
    fg3a_frequency :=
      if divFg3a then pdiv100 (toNumeric r.fg3a_frequency) else toNumeric r.fg3a_frequency
    fga_frequency :=
      if divFga then pdiv100 (toNumeric r.fga_frequency) else toNumeric r.fga_frequency
    points := points
    points_per_shot := safe_div points fga
    fg3_rate := safe_div fg3a fga }

/-- `_prepare_dataframe` from `src/nba_stats.py`: coerce the numeric columns,
renormalise the frequency columns when their maximum exceeds 1, derive
`points`, `points_per_shot` and `fg3_rate`, and stamp season metadata. -/
def _prepare_dataframe (df : List TaggedRow) (season season_type : String) :
    List PreparedRow :=
  let divFga := pGt1 (colMax (df.map (fun r => toNumeric r.fga_frequency)))
  let divFg2a := pGt1 (colMax (df.map (fun r => toNumeric r.fg2a_frequency)))
  let divFg3a := pGt1 (colMax (df.map (fun r => toNumeric r.fg3a_frequency)))
  df.map (prepRow divFga divFg2a divFg3a season season_type)

/-- `fetch_shot_clock_breakdown` from `src/nba_stats.py`, with the HTTP layer
abstracted into the list of per-partition responses: filter each partition to
the configured team, raise `NBAStatsError` when no partition contributed any
row, otherwise concatenate and prepare. -/
def fetch_shot_clock_breakdown (season season_type : String)
    (responses : List (String × String × List ApiRow)) :
    Except String (List PreparedRow) :=
  let frames := collectFrames responses
  if frames.isEmpty then
    .error "NBA stats endpoint returned no rows for the requested filters."
  else
    .ok (_prepare_dataframe frames season season_type)

/-! ## `src/data_loader.py` and `app.py`: the dashboard aggregation layer

`load_shot_clock_data` declares `SHOT_CLOCK_RANGE` an ordered categorical
over a fixed enumeration; `get_team_data` groups player rows by
`(PLAYER_LAST_TEAM_ABBREVIATION, SHOT_CLOCK_RANGE)`, sums the count columns
and derives ratio columns with `.fillna(0)`; `app.py` re-aggregates the team
table by shot-clock range. -/

/-- `shot_clock_order` from `load_shot_clock_data` (= `SHOT_CLOCK_ORDER` in
`app.py`). -/
def shot_clock_order : List String :=
  ["24-22", "22-18", "18-15", "15-7", "7-4", "4-0"]

/-- Categorical code of a shot-clock label: its position in the declared
enumeration (labels outside the enumeration, which pandas turns into NaN and
sorts last, get code 6 = the enumeration's length). -/
def catCode (s : String) : Nat :=
  shot_clock_order.indexOf s

/-- Comparison of shot-clock labels by their declared categorical order. -/
def catLE (a b : String) : Prop :=
  catCode a ≤ catCode b

instance : DecidableRel catLE := fun _ _ => Nat.decLe _ _

instance : IsTotal String catLE := ⟨fun _ _ => Nat.le_total _ _⟩

instance : IsTrans String catLE := ⟨fun _ _ _ => Nat.le_trans⟩

/-- `sort_values("SHOT_CLOCK_RANGE")` on a categorical column: a stable sort
by categorical code (`app.py`, `team_by_range` sort). -/
def sortByRange (keys : List String) : List String :=
  List.insertionSort catLE keys

/-- One row of the CSV loaded by `load_shot_clock_data`, after its numeric
columns were coerced-and-zero-filled (counts use the fill-zero policy, so
they are plain rationals, not `PValue`s). -/
structure PlayerRow where
  playerId : Nat
  playerName : String
  team : String
  range : String
  fgm : ℚ
  fga : ℚ
  fg3m : ℚ
  fg3a : ℚ
  fg2m : ℚ
  fg2a : ℚ
  gp : ℚ
deriving DecidableEq, Repr, Inhabited

/-- `df["POINTS"] = 2 * df["FG2M"] + 3 * df["FG3M"]` from
`load_shot_clock_data`. -/
def rowPoints (r : PlayerRow) : ℚ :=
  2 * r.fg2m + 3 * r.fg3m

/-- Sum of a numeric column over a frame. -/
def sumQ (f : PlayerRow → ℚ) (rs : List PlayerRow) : ℚ :=
  (rs.map f).sum

/-- Python/pandas string comparison: strict lexicographic order by code
point. -/
def charsLt : List Char → List Char → Bool
  | [], [] => false
  | [], _ :: _ => true
  | _ :: _, [] => false
  | a :: as, b :: bs => decide (a < b) || (a == b && charsLt as bs)

/-- Ordering of pandas group keys for a `(string, ordered categorical)`
grouping: lexicographic on the team string, then by categorical code. -/
def teamKeyLE (a b : String × String) : Prop :=
  charsLt a.1.data b.1.data = true ∨ (a.1 = b.1 ∧ catCode a.2 ≤ catCode b.2)

instance : DecidableRel teamKeyLE := fun a b => by
  unfold teamKeyLE; infer_instance

/-- Group keys of `get_team_data`'s
`groupby(["PLAYER_LAST_TEAM_ABBREVIATION", "SHOT_CLOCK_RANGE"])`: the
distinct observed key pairs, in pandas' sorted group order. -/
def teamKeys (rows : List PlayerRow) : List (String × String) :=
  List.insertionSort teamKeyLE ((rows.map (fun r => (r.team, r.range))).dedup)

/-- The rows of one `(team, shot-clock range)` group. -/
def groupRows (rows : List PlayerRow) (k : String × String) : List PlayerRow :=
  rows.filter (fun r => r.team == k.1 && r.range == k.2)

/-- One output row of `get_team_data`. -/
structure TeamAgg where
  team : String
  range : String
  totalFgm : ℚ
  totalFga : ℚ
  totalFg3m : ℚ
  totalFg3a : ℚ
  totalFg2m : ℚ
  totalFg2a : ℚ
  totalPoints : ℚ
  numPlayers : Nat
  totalGp : ℚ
  fgPct : PValue
  fg3Pct : PValue
  efgPct : PValue
  ptsPerFga : PValue
deriving DecidableEq, Repr, Inhabited

/-- The aggregate row `get_team_data` produces for one group: summed counts,
then ratio columns recomputed from the sums with `.fillna(0)`. -/
def mkTeamAgg (rows : List PlayerRow) (k : String × String) : TeamAgg :=
  let g := groupRows rows k
  let fgm := sumQ (fun r => r.fgm) g
  let fga := sumQ (fun r => r.fga) g
  let fg3m := sumQ (fun r => r.fg3m) g
  let fg3a := sumQ (fun r => r.fg3a) g
  let points := sumQ rowPoints g
  { team := k.1
    range := k.2
    totalFgm := fgm
    totalFga := fga
    totalFg3m := fg3m
    totalFg3a := fg3a
    totalFg2m := sumQ (fun r => r.fg2m) g
    totalFg2a := sumQ (fun r => r.fg2a) g
    totalPoints := points
    numPlayers := ((g.map (fun r => r.playerId)).dedup).length
    totalGp := sumQ (fun r => r.gp) g
    fgPct := fillna 0 (pdivRat fgm fga)
    fg3Pct := fillna 0 (pdivRat fg3m fg3a)
    efgPct := fillna 0 (pdivRat (fgm + (1 / 2) * fg3m) fga)
    ptsPerFga := fillna 0 (pdivRat points fga) }

/-- `get_team_data` from `src/data_loader.py`. -/
def get_team_data (rows : List PlayerRow) : List TeamAgg :=
  (teamKeys rows).map (mkTeamAgg rows)

/-- Distinct shot-clock keys of a team table, in pandas' sorted
(categorical) group order — the key order of
`groupby("SHOT_CLOCK_RANGE", observed=True)` in `app.py`. -/
def rangeKeys (rows : List TeamAgg) : List String :=
  List.insertionSort catLE ((rows.map (fun a => a.range)).dedup)

/-- One output row of the `team_by_range` aggregation in `app.py`. -/
structure ByRangeRow where
  range : String
  totalFgm : ℚ
  totalFga : ℚ
  totalFg3m : ℚ
  totalPoints : ℚ
  efgPct : PValue
  fgPct : PValue
  ptsPerFga : PValue
deriving DecidableEq, Repr, Inhabited

/-- The `team_by_range` aggregation of `app.py` (main, Team Performance
tab): group the team table by shot-clock range, sum `TOTAL_FGM`,
`TOTAL_FGA`, `TOTAL_FG3M`, `TOTAL_POINTS`, take the *mean* of the per-row
`EFG_PCT` column, then derive `FG_PCT` and `PTS_PER_FGA` from the sums and
scale `EFG_PCT` by 100. -/
def team_by_range (rows : List TeamAgg) : List ByRangeRow :=
  (rangeKeys rows).map (fun k =>
    let g := rows.filter (fun a => a.range == k)
    let fgm := (g.map (fun a => a.totalFgm)).sum
    let fga := (g.map (fun a => a.totalFga)).sum
    let fg3m := (g.map (fun a => a.totalFg3m)).sum
    let points := (g.map (fun a => a.totalPoints)).sum
    { range := k
      totalFgm := fgm
      totalFga := fga
      totalFg3m := fg3m
      totalPoints := points
      efgPct := pmul 100 (pmean (g.map (fun a => a.efgPct)))
      fgPct := fillna 0 (pmul 100 (pdivRat fgm fga))
      ptsPerFga := fillna 0 (pdivRat points fga) })

/-- `overall_efg_pct` from `app.py` (main, Team Performance headline
metric): `(total_fgm + 0.5 * ΣFG3M) / total_fga * 100` guarded by
`total_fga > 0`, else 0. -/
def overall_efg_pct (rows : List TeamAgg) : ℚ :=
  let total_fga := (rows.map (fun a => a.totalFga)).sum
  let total_fgm := (rows.map (fun a => a.totalFgm)).sum
  if 0 < total_fga then
    (total_fgm + (1 / 2) * (rows.map (fun a => a.totalFg3m)).sum) / total_fga * 100
  else 0

/-! ## `data/scrape_shotclock_data.py`

The browser/HTTP plumbing is abstracted into a `Page` record describing what
one partition's fetch observed: the rendered tables (with their parse
results), the captured network responses, and any embedded JSON blob.  The
decision logic of `scrape_with_selenium` and `main` is translated
literally. -/

/-- A parsed dataframe (`pd.read_html` result or an API `rowSet`):
its column labels, the lowercase of its full string rendering (`str(df)` /
`df.to_string()`), and its row count. -/
structure Frame where
  cols : List String
  text : String
  nRows : Nat
deriving DecidableEq, Repr, Inhabited

/-- A rendered `<table>` element: its visible text, its `<tr>` count, and the
dataframe `pd.read_html` parses from it. -/
structure RenderedTable where
  text : String
  rowCount : Nat
  parsed : Frame
deriving DecidableEq, Repr, Inhabited

/-- Stat-column tokens of the Selenium table sweep (line 404). -/
def statsIndicators : List String :=
  ["player", "fgm", "fga", "fg%", "3pm", "3pa", "pts", "reb", "ast"]

/-- Calendar tokens of the Selenium table sweep (line 407). -/
def calendarIndicators : List String :=
  ["sun", "mon", "tue", "wed", "thu", "fri", "sat",
   "november", "december", "january", "february"]

/-- Day-of-week column labels used by the post-parse calendar test. -/
def dayColumns : List String :=
  ["sun", "mon", "tue", "wed", "thu", "fri", "sat"]

/-- The table-classification test of the Selenium sweep (line 415): stat
tokens present, no calendar token, strictly more than 10 `<tr>` rows. -/
def isStatsTable (t : RenderedTable) : Bool :=
  statsIndicators.any (fun tok => substrB tok (pyLower t.text)) &&
    !(calendarIndicators.any (fun tok => substrB tok (pyLower t.text))) &&
    decide (10 < t.rowCount)

/-- `df = df.loc[:, ~df.columns.str.contains('^Unnamed')]`. -/
def dropUnnamed (f : Frame) : Frame :=
  { f with cols := f.cols.filter (fun c => !(leadsB ("Unnamed").data c.data)) }

/-- The post-parse acceptance test of the Selenium table strategy (lines
439-459): drop unnamed columns, reject calendar column sets, require a
non-empty frame with more than 3 columns and a player or stats column. -/
def postParse (f : Frame) : Option Frame :=
  let f := dropUnnamed f
  let colsLower := f.cols.map pyLower
  let has_player_col := colsLower.any (fun c => substrB ("player") c)
  let has_stats_cols := ["fgm", "fga", "fg%", "fg_pct"].any (fun c => colsLower.contains c)
  let is_calendar := dayColumns.any (fun c => colsLower.contains c)
  if is_calendar then none
  else if decide (0 < f.nRows) && decide (3 < f.cols.length) &&
      (has_player_col || has_stats_cols) then some f
  else none

/-- Ordering used by the fallback `sorted(all_tables, key=len(rows),
reverse=True)`. -/
def rowsGE (a b : RenderedTable) : Prop :=
  b.rowCount ≤ a.rowCount

instance : DecidableRel rowsGE := fun _ _ => Nat.decLe _ _

instance : IsTotal RenderedTable rowsGE := ⟨fun _ _ => Nat.le_total _ _⟩

instance : IsTrans RenderedTable rowsGE :=
  ⟨fun _ _ _ h h' => Nat.le_trans h' h⟩

/-- Strategy 1 of `scrape_with_selenium` (rendered-table extraction): take
the first table classified as stats; if none qualifies, fall back to the
largest table whose text mentions neither "sun" nor "mon"; then run the
post-parse acceptance test. -/
def strategy1 (tables : List RenderedTable) : Option Frame :=
  let stats_table :=
    match tables.find? isStatsTable with
    | some t => some t
    | none =>
      (List.insertionSort rowsGE tables).find?
        (fun t => !(substrB ("sun") (pyLower t.text)) && !(substrB ("mon") (pyLower t.text)))
  match stats_table with
  | some t => postParse t.parsed
  | none => none

/-- A captured network response considered by strategy 2: its URL, the
`SeasonType` query value extracted (and URL-unquoted) from the lowercased
URL when present, and the frame parsed from its body when the body held a
result set. -/
structure ApiResp where
  url : String
  seasonTypeParam : Option String
  frame : Option Frame
deriving DecidableEq, Repr, Inhabited

/-- NBA-Cup markers checked against the URL (line 508). -/
def cupUrlMarkers : List String :=
  ["cup", "nbacup", "nba%20cup", "nba+cup"]

/-- Regular-season markers checked against the URL (line 513). -/
def regularUrlMarkers : List String :=
  ["regular", "regularseason", "regular%20season", "regular+season"]

/-- The per-response body of strategy 2 (lines 497-569): reject any cup
marker in the URL; vet the `SeasonType` parameter (reject "cup", accept
"regular", otherwise skip — and without the parameter require a regular
marker somewhere in the URL); require more than 10 data rows; finally reject
payloads whose text contains both "cup" and "nba" (the `df.to_string()`
check; the `df.head(10)` sample check repeats the same containment test on
the payload text). -/
def strategy2One (r : ApiResp) : Option Frame :=
  let url_lower := pyLower r.url
  if cupUrlMarkers.any (fun m => substrB m url_lower) then none
  else
    let has_regular_season := regularUrlMarkers.any (fun m => substrB m url_lower)
    let seasonOk :=
      match r.seasonTypeParam with
      | some v =>
        let vl := pyLower v
        if substrB ("cup") vl then false
        else if substrB ("regular") vl then true
        else false
      | none => has_regular_season
    if !seasonOk then none
    else
      match r.frame with
      | none => none
      | some f =>
        if decide (10 < f.nRows) then
          let df_str := pyLower f.text
          if substrB ("cup") df_str && substrB ("nba") df_str then none
          else some f
        else none

/-- Strategy 2 of `scrape_with_selenium`: try the three most recent captured
API responses in order, accepting the first that passes every guard. -/
def strategy2 (resps : List ApiResp) : Option Frame :=
  (resps.take 3).findSome? strategy2One

/-- Stat tokens of the BeautifulSoup sweep (line 638; note: no "reb"/"ast"). -/
def soupStatsIndicators : List String :=
  ["player", "fgm", "fga", "fg%", "3pm", "3pa", "pts"]

/-- Strategy 4's handling of one BeautifulSoup table (lines 629-668): skip
tables mentioning a weekday, require a stat token, reject calendar column
sets, require more than 5 columns, more than 10 rows and a player or stats
column, then drop unnamed columns. -/
def strategy4One (t : RenderedTable) : Option Frame :=
  let table_text := pyLower t.text
  if dayColumns.any (fun tok => substrB tok table_text) then none
  else if !(soupStatsIndicators.any (fun tok => substrB tok table_text)) then none
  else
    let f := t.parsed
    let colsLower := f.cols.map pyLower
    let is_calendar := dayColumns.any (fun c => colsLower.contains c)
    let has_player_col := colsLower.any (fun c => substrB ("player") c)
    let has_stats_cols := ["fgm", "fga", "fg%", "fg_pct"].any (fun c => colsLower.contains c)
    if is_calendar then none
    else if decide (5 < f.cols.length) && decide (10 < f.nRows) &&
        (has_player_col || has_stats_cols) then some (dropUnnamed f)
    else none

/-- Strategy 4 of `scrape_with_selenium`: the BeautifulSoup sweep over all
tables, first acceptable table wins. -/
def strategy4 (tables : List RenderedTable) : Option Frame :=
  tables.findSome? strategy4One

/-- What one partition's page fetch observed. -/
structure Page where
  tables : List RenderedTable
  apiResponses : List ApiResp
  embedded : Option Frame
  soupTables : List RenderedTable
deriving DecidableEq, Repr, Inhabited

/-- `scrape_with_selenium` for one partition: rendered-table extraction,
then network-response interception, then embedded-JSON extraction (which
performs no validation beyond a non-empty `rowSet`), then the BeautifulSoup
sweep. -/
def scrape_with_selenium (p : Page) : Option Frame :=
  match strategy1 p.tables with
  | some f => some f
  | none =>
    match strategy2 p.apiResponses with
    | some f => some f
    | none =>
      match p.embedded with
      | some f => if decide (0 < f.nRows) then some f else strategy4 p.soupTables
      | none => strategy4 p.soupTables

/-- The final NBA-Cup test of `main` (lines 852-862) on a frame about to be
saved: `str(df).lower()` and the joined lowercased column labels. -/
def mainHasNbaCup (f : Frame) : Bool :=
  let df_str := pyLower f.text
  let df_columns_str := String.intercalate " " (f.cols.map pyLower)
  substrB ("nba cup") df_str || substrB ("nbacup") df_str ||
    substrB ("nba cup") df_columns_str ||
    (substrB ("cup") df_str && substrB ("nba") df_str &&
      !(substrB ("regular") df_str))

/-- One iteration of `main`'s partition loop: Selenium scrape, direct-API
fallback when that produced nothing (the fallback's outcome is the last
component of the input), then the final NBA-Cup test; `some` = the frame
appended to `all_data`, `none` = partition failed or was rejected. -/
def partitionResult (p : String × Page × Option Frame) : Option Frame :=
  let df :=
    match scrape_with_selenium p.2.1 with
    | some d => if d.nRows = 0 then p.2.2 else some d
    | none => p.2.2
  match df with
  | some d => if d.nRows ≠ 0 && !(mainHasNbaCup d) then some d else none
  | none => none

/-- `pd.concat` of the accepted frames. -/
def concatFrames (fs : List Frame) : Frame :=
  { cols := fs.foldr (fun f acc => f.cols ++ acc.filter (fun c => !(f.cols.contains c))) []
    text := String.intercalate "\x0a" (fs.map (fun f => f.text))
    nRows := (fs.map (fun f => f.nRows)).sum }

/-- `main` of `data/scrape_shotclock_data.py`: run every partition, collect
the accepted frames, and return their concatenation — or `None` (after
printing a message) when no partition yielded data. -/
def scrapeMain (partitions : List (String × Page × Option Frame)) : Option Frame :=
  let all_data := partitions.filterMap partitionResult
  if all_data.isEmpty then none else some (concatFrames all_data)

/-! ## Rate-limiting traces (`main`'s loop and `data/data_extraction.py`) -/

/-- An observable event of a fetch loop: one partition/team fetch attempt, or
a blocking sleep of the given number of seconds. -/
inductive Event where
  | fetch (label : String)
  | sleep (d : ℚ)
deriving DecidableEq, Repr

/-- The event trace of `main`'s partition loop: each iteration attempts one
partition and then always sleeps 2 seconds (`time.sleep(2)` sits at the end
of the loop body, outside any conditional), whatever the attempt's outcome
(the boolean). -/
def scrapeMainTrace (partitions : List (String × Bool)) : List Event :=
  partitions.flatMap (fun p => [Event.fetch p.1, Event.sleep 2])

/-- The event trace of the team loop of `data/data_extraction.py`: each
iteration fetches one team and sleeps 1.5 seconds only when the fetch
succeeded — `time.sleep(1.5)` sits inside the `try` block after the fetch,
so an exception skips it. -/
def dataExtractionTrace (teams : List (String × Bool)) : List Event :=
  teams.flatMap (fun t =>
    Event.fetch t.1 :: (if t.2 then [Event.sleep (3 / 2)] else []))

/-- Checks that every fetch event after the first is separated from the
previous fetch by accumulated sleep of at least `minD` seconds. -/
def delaysOkAux (minD : ℚ) : Bool → ℚ → List Event → Bool
  | _, _, [] => true
  | seen, acc, Event.sleep d :: es => delaysOkAux minD seen (acc + d) es
  | seen, acc, Event.fetch _ :: es =>
    if seen && decide (acc < minD) then false
    else delaysOkAux minD true 0 es

/-- The inter-fetch delay property of a trace. -/
def delaysOk (minD : ℚ) (es : List Event) : Bool :=
  delaysOkAux minD false 0 es

/-! ## Claim theorems -/

/-- All four token groups of `map_action_to_play_type`, in precedence
order. -/
def allPlayTypeTokens : List String :=
  pnrBallHandlerTokens ++ pnrRollManTokens ++ isolationTokens ++ driveKickTokens

/-- C10: `map_action_to_play_type` is total on strings and always lands in
one of the six categories; it depends only on the lowercased input
(case-insensitive matching); an input matching an earlier token group maps
to that group's category regardless of later groups; and "Other" is returned
exactly when no group token and no "shot" substring occurs in the
(lowercased) input. -/
theorem C10_map_action_character (s : String) :
    map_action_to_play_type s ∈ playTypeCategories ∧
    (∀ t : String, pyLower s = pyLower t →
      map_action_to_play_type s = map_action_to_play_type t) ∧
    (pnrBallHandlerTokens.any (fun x => substrB x (pyLower s)) = true →
      map_action_to_play_type s = "PnR Ball Handler") ∧
    (pnrBallHandlerTokens.any (fun x => substrB x (pyLower s)) = false →
      pnrRollManTokens.any (fun x => substrB x (pyLower s)) = true →
      map_action_to_play_type s = "PnR Roll Man") ∧
    (pnrBallHandlerTokens.any (fun x => substrB x (pyLower s)) = false →
      pnrRollManTokens.any (fun x => substrB x (pyLower s)) = false →
      isolationTokens.any (fun x => substrB x (pyLower s)) = true →
      map_action_to_play_type s = "Isolation") ∧
    (pnrBallHandlerTokens.any (fun x => substrB x (pyLower s)) = false →
      pnrRollManTokens.any (fun x => substrB x (pyLower s)) = false →
      isolationTokens.any (fun x => substrB x (pyLower s)) = false →
      driveKickTokens.any (fun x => substrB x (pyLower s)) = true →
      map_action_to_play_type s = "Drive & Kick") ∧
    (pnrBallHandlerTokens.any (fun x => substrB x (pyLower s)) = false →
      pnrRollManTokens.any (fun x => substrB x (pyLower s)) = false →
      isolationTokens.any (fun x => substrB x (pyLower s)) = false →
      driveKickTokens.any (fun x => substrB x (pyLower s)) = false →
      substrB ("shot") (pyLower s) = true →
      map_action_to_play_type s = "Spot-Up") ∧
    (map_action_to_play_type s = "Other" ↔
      ((∀ x ∈ allPlayTypeTokens, substrB x (pyLower s) = false) ∧
        substrB ("shot") (pyLower s) = false)) := by
  have hjs : ∀ a : String, substrB ("shot") a = false → substrB ("jump shot") a = false := by
    intro a ha
    by_contra hc
    rw [Bool.not_eq_false] at hc
    have : substrB ("shot") a = true :=
      substrB_trans (m := "shot") (n := "jump shot") (by decide) hc
    simp [this] at ha
  refine ⟨?_, ?_, ?_, ?_, ?_, ?_, ?_, ?_⟩
  · cases h1 : pnrBallHandlerTokens.any (fun x => substrB x (pyLower s)) <;>
      cases h2 : pnrRollManTokens.any (fun x => substrB x (pyLower s)) <;>
      cases h3 : isolationTokens.any (fun x => substrB x (pyLower s)) <;>
      cases h4 : driveKickTokens.any (fun x => substrB x (pyLower s)) <;>
      cases h5 : (substrB ("jump shot") (pyLower s) || substrB ("shot") (pyLower s)) <;>
      simp [map_action_to_play_type, h1, h2, h3, h4, h5, playTypeCategories]
  · intro t ht
    unfold map_action_to_play_type
    rw [ht]
  · intro h1
    simp [map_action_to_play_type, h1]
  · intro h1 h2
    simp [map_action_to_play_type, h1, h2]
  · intro h1 h2 h3
    simp [map_action_to_play_type, h1, h2, h3]
  · intro h1 h2 h3 h4
    simp [map_action_to_play_type, h1, h2, h3, h4]
  · intro h1 h2 h3 h4 h5
    simp [map_action_to_play_type, h1, h2, h3, h4, h5]
  · constructor
    · intro hres
      by_cases h1 : pnrBallHandlerTokens.any (fun x => substrB x (pyLower s)) = true
      · simp [map_action_to_play_type, h1] at hres
      · rw [Bool.not_eq_true] at h1
        by_cases h2 : pnrRollManTokens.any (fun x => substrB x (pyLower s)) = true
        · simp [map_action_to_play_type, h1, h2] at hres
        · rw [Bool.not_eq_true] at h2
          by_cases h3 : isolationTokens.any (fun x => substrB x (pyLower s)) = true
          · simp [map_action_to_play_type, h1, h2, h3] at hres
          · rw [Bool.not_eq_true] at h3
            by_cases h4 : driveKickTokens.any (fun x => substrB x (pyLower s)) = true
            · simp [map_action_to_play_type, h1, h2, h3, h4] at hres
            · rw [Bool.not_eq_true] at h4
              by_cases h5 : substrB ("shot") (pyLower s) = true
              · simp [map_action_to_play_type, h1, h2, h3, h4, h5] at hres
              · rw [Bool.not_eq_true] at h5
                refine ⟨?_, h5⟩
                have hof : ∀ l : List String,
                    l.any (fun x => substrB x (pyLower s)) = false →
                    ∀ x ∈ l, substrB x (pyLower s) = false := by
                  intro l hl x hx
                  rw [List.any_eq_false] at hl
                  have hx' := hl x hx
                  rwa [Bool.not_eq_true] at hx'
                intro x hx
                rw [allPlayTypeTokens] at hx
                simp only [List.mem_append] at hx
                rcases hx with ((hx | hx) | hx) | hx
                · exact hof _ h1 x hx
                · exact hof _ h2 x hx
                · exact hof _ h3 x hx
                · exact hof _ h4 x hx
    · rintro ⟨htok, hshot⟩
      have hb : ∀ (l : List String), (∀ x ∈ l, x ∈ allPlayTypeTokens) →
          l.any (fun x => substrB x (pyLower s)) = false := by
        intro l hl
        rw [List.any_eq_false]
        intro x hx
        rw [Bool.not_eq_true]
        exact htok x (hl x hx)
      have h1 := hb pnrBallHandlerTokens (by intro x hx; simp [allPlayTypeTokens, hx])
      have h2 := hb pnrRollManTokens (by intro x hx; simp [allPlayTypeTokens, hx])
      have h3 := hb isolationTokens (by intro x hx; simp [allPlayTypeTokens, hx])
      have h4 := hb driveKickTokens (by intro x hx; simp [allPlayTypeTokens, hx])
      simp [map_action_to_play_type, h1, h2, h3, h4, hshot, hjs _ hshot]

/-- C10 witness: the precedence and "Other" clauses of
`C10_map_action_character` evaluated at concrete action strings. -/
theorem C10_map_action_character_witness :
    map_action_to_play_type "Driving Floating Jump Shot" = "Drive & Kick" ∧
    map_action_to_play_type "Tip Dunk Shot" = "PnR Roll Man" ∧
    map_action_to_play_type "Rebound" = "Other" :=
  ⟨(C10_map_action_character "Driving Floating Jump Shot").2.2.2.2.2.1
      (by decide) (by decide) (by decide) (by decide),
    (C10_map_action_character "Tip Dunk Shot").2.2.2.1 (by decide) (by decide),
    ((C10_map_action_character "Rebound").2.2.2.2.2.2.2).mpr
      ⟨by decide, by decide⟩⟩

/-- The shot-clock labels of the `team_by_range` output are exactly its
sorted group keys. -/
theorem team_by_range_ranges (rows : List TeamAgg) :
    (team_by_range rows).map (fun r => r.range) = rangeKeys rows := by
  unfold team_by_range
  rw [List.map_map]
  exact List.map_id'' (fun k => rfl) (rangeKeys rows)

/-- C4: sorting a table of shot-clock keys (`sort_values` on the ordered
categorical, as `app.py` does) always yields a permutation of the input that
is sorted by the enumeration's declared order, and the `team_by_range`
grouping emits its group rows in that declared order; on a concrete key set
the result follows the declared order, which is neither the lexical order
nor the order the keys were encountered in. -/
theorem C4_partition_order :
    (∀ keys : List String,
      List.Sorted catLE (sortByRange keys) ∧ (sortByRange keys).Perm keys) ∧
    (∀ rows : List TeamAgg,
      List.Sorted catLE ((team_by_range rows).map (fun r => r.range))) ∧
    sortByRange ["4-0", "24-22", "18-15"] = ["24-22", "18-15", "4-0"] ∧
    sortByRange ["4-0", "24-22", "18-15"] ≠ ["18-15", "24-22", "4-0"] ∧
    sortByRange ["4-0", "24-22", "18-15"] ≠ ["4-0", "24-22", "18-15"] := by
  refine ⟨?_, ?_, by decide, by decide, by decide⟩
  · intro keys
    exact ⟨List.sorted_insertionSort catLE keys, List.perm_insertionSort catLE keys⟩
  · intro rows
    rw [team_by_range_ranges]
    exact List.sorted_insertionSort catLE _

/-- A one-player input frame realising the specification's effective
field-goal round trip: 10 makes, 4 made threes, 20 attempts. -/
def efgRows : List PlayerRow :=
  [{ playerId := 1, playerName := "P One", team := "PHI", range := "24-22",
     fgm := 10, fga := 20, fg3m := 4, fg3a := 8, fg2m := 6, fg2a := 12, gp := 70 }]

/-- C5: every `get_team_data` aggregate with a non-zero attempt total
carries `EFG_PCT = (ΣFGM + 0.5·ΣFG3M) / ΣFGA`; the headline `overall_efg_pct`
of `app.py` computes the same formula (scaled to percent) whenever attempts
are positive; and on the round-trip input (makes 10, threes 4, attempts 20)
the aggregate eFG is exactly 3/5 = 0.60. -/
theorem C5_efg_formula :
    (∀ rows : List PlayerRow, ∀ a ∈ get_team_data rows, a.totalFga ≠ 0 →
      a.efgPct = PValue.num ((a.totalFgm + (1 / 2) * a.totalFg3m) / a.totalFga)) ∧
    (∀ rows : List TeamAgg,
      0 < (rows.map (fun a => a.totalFga)).sum →
      overall_efg_pct rows =
        ((rows.map (fun a => a.totalFgm)).sum
            + (1 / 2) * (rows.map (fun a => a.totalFg3m)).sum)
          / (rows.map (fun a => a.totalFga)).sum * 100) ∧
    (get_team_data efgRows).map (fun a => a.efgPct) = [PValue.num (3 / 5)] := by
  refine ⟨?_, ?_, ?_⟩
  · intro rows a ha hfga
    obtain ⟨k, hk, rfl⟩ := List.mem_map.mp ha
    simp only [mkTeamAgg] at hfga ⊢
    rw [pdivRat, if_neg hfga]
    rfl
  · intro rows hpos
    rw [overall_efg_pct, if_pos hpos]
  · simp +decide [get_team_data, teamKeys, efgRows, mkTeamAgg, groupRows, sumQ,
      rowPoints, pdivRat, fillna, List.insertionSort, List.orderedInsert]
    norm_num

/-- C5 witness: the formula clauses of `C5_efg_formula` evaluated on the
round-trip input. -/
theorem C5_efg_formula_witness :
    (get_team_data efgRows).headI.totalFga ≠ 0 ∧
    (get_team_data efgRows).headI.efgPct =
      PValue.num (((get_team_data efgRows).headI.totalFgm
          + (1 / 2) * (get_team_data efgRows).headI.totalFg3m)
        / (get_team_data efgRows).headI.totalFga) ∧
    overall_efg_pct (get_team_data efgRows) = 60 := by
  have hne : (get_team_data efgRows).headI.totalFga ≠ 0 := by
    simp +decide [get_team_data, teamKeys, efgRows, mkTeamAgg, groupRows, sumQ,
      rowPoints, List.insertionSort, List.orderedInsert]
  have hmem : (get_team_data efgRows).headI ∈ get_team_data efgRows := by
    simp [get_team_data, teamKeys, efgRows, List.insertionSort, List.orderedInsert]
  refine ⟨hne, C5_efg_formula.1 efgRows _ hmem hne, ?_⟩
  have hpos : 0 < ((get_team_data efgRows).map (fun a => a.totalFga)).sum := by
    simp +decide [get_team_data, teamKeys, efgRows, mkTeamAgg, groupRows, sumQ,
      rowPoints, List.insertionSort, List.orderedInsert]
  rw [C5_efg_formula.2.1 (get_team_data efgRows) hpos]
  simp +decide [get_team_data, teamKeys, efgRows, mkTeamAgg, groupRows, sumQ,
    rowPoints, List.insertionSort, List.orderedInsert]
  norm_num

/-! Projection helpers for `prepRow` and `mkTeamAgg`. -/

theorem prepRow_fga (d1 d2 d3 : Bool) (s t : String) (r : TaggedRow) :
    (prepRow d1 d2 d3 s t r).fga = toNumeric r.fga := rfl

theorem prepRow_points (d1 d2 d3 : Bool) (s t : String) (r : TaggedRow) :
    (prepRow d1 d2 d3 s t r).points =
      padd (pmul 2 (toNumeric r.fg2m)) (pmul 3 (toNumeric r.fg3m)) := rfl

theorem prepRow_points_per_shot (d1 d2 d3 : Bool) (s t : String) (r : TaggedRow) :
    (prepRow d1 d2 d3 s t r).points_per_shot =
      safe_div (padd (pmul 2 (toNumeric r.fg2m)) (pmul 3 (toNumeric r.fg3m)))
        (toNumeric r.fga) := rfl

theorem prepRow_fg3_rate (d1 d2 d3 : Bool) (s t : String) (r : TaggedRow) :
    (prepRow d1 d2 d3 s t r).fg3_rate =
      safe_div (toNumeric r.fg3a) (toNumeric r.fga) := rfl

theorem prepRow_team_id (d1 d2 d3 : Bool) (s t : String) (r : TaggedRow) :
    (prepRow d1 d2 d3 s t r).team_id = r.team_id := rfl

theorem mkTeamAgg_totalFgm (rows : List PlayerRow) (k : String × String) :
    (mkTeamAgg rows k).totalFgm = sumQ (fun r => r.fgm) (groupRows rows k) := rfl

theorem mkTeamAgg_totalFga (rows : List PlayerRow) (k : String × String) :
    (mkTeamAgg rows k).totalFga = sumQ (fun r => r.fga) (groupRows rows k) := rfl

theorem mkTeamAgg_fgPct (rows : List PlayerRow) (k : String × String) :
    (mkTeamAgg rows k).fgPct =
      fillna 0 (pdivRat (sumQ (fun r => r.fgm) (groupRows rows k))
        (sumQ (fun r => r.fga) (groupRows rows k))) := rfl

/-- `safe_div` by a zero denominator is always the NaN sentinel. -/
theorem safe_div_num_zero (x : PValue) : safe_div x (.num 0) = .nan := by
  cases x with
  | num a =>
    by_cases h0 : a = 0
    · simp [safe_div, pdivP, pdivRat, h0]
    · by_cases hp : 0 < a <;> simp [safe_div, pdivP, pdivRat, h0, hp]
  | nan => rfl
  | inf => simp [safe_div, pdivP]
  | ninf => simp [safe_div, pdivP]

/-- `safe_div` of finite cells with a non-zero denominator is the exact
quotient. -/
theorem safe_div_num_num (p q : ℚ) (hq : q ≠ 0) :
    safe_div (.num p) (.num q) = .num (p / q) := by
  simp [safe_div, pdivP, pdivRat, hq]

/-- An all-zero player row: its group has a zero attempt denominator. -/
def zeroRow : PlayerRow :=
  { playerId := 11, playerName := "P Zero", team := "NOP", range := "7-4",
    fgm := 0, fga := 0, fg3m := 0, fg3a := 0, fg2m := 0, fg2a := 0, gp := 0 }

/-- A player whose only make is a three on his only attempt: eFG = 1.5. -/
def allThreesRow : PlayerRow :=
  { playerId := 12, playerName := "P Threes", team := "BOS", range := "4-0",
    fgm := 1, fga := 1, fg3m := 1, fg3a := 1, fg2m := 0, fg2a := 0, gp := 1 }

/-- C1 counterexample: in `get_team_data`, a group whose attempt total (the
ratio denominator) is zero gets `FG_PCT = 0` — the number zero, not the
NaN/NA sentinel, because of `.fillna(0)` — and a group of all-three-point
makes gets `EFG_PCT = 1.5`, outside `[0,1]`. -/
theorem C1_counterexample :
    (get_team_data [zeroRow]).map (fun a => (a.totalFga, a.fgPct)) =
      [((0 : ℚ), PValue.num 0)] ∧
    (get_team_data [allThreesRow]).map (fun a => a.efgPct) = [PValue.num (3 / 2)] ∧
    ¬((3 : ℚ) / 2 ≤ 1) := by
  refine ⟨?_, ?_, by norm_num⟩
  · simp +decide [get_team_data, teamKeys, zeroRow, mkTeamAgg, groupRows, sumQ,
      rowPoints, pdivRat, fillna, List.insertionSort, List.orderedInsert]
  · simp +decide [get_team_data, teamKeys, allThreesRow, mkTeamAgg, groupRows, sumQ,
      rowPoints, pdivRat, fillna, List.insertionSort, List.orderedInsert]
    norm_num

/-- C1 (amended): the `safe_div`-derived ratio fields of the stats-fetch
module (`points_per_shot`, `fg3_rate`) are the NaN sentinel whenever the
attempt denominator is zero (whatever the numerator), and an exact finite
quotient when it is not; the dashboard aggregator `get_team_data` instead
fills the 0/0 case with the number 0 and turns a positive numerator over a
zero denominator into `inf`; and when every player row has
`0 ≤ FGM ≤ FGA`, every group with a non-zero denominator has a finite
`FG_PCT` within `[0,1]`. -/
theorem C1_ratio_sentinels :
    (∀ (df : List TaggedRow) (s t : String),
      ∀ r ∈ _prepare_dataframe df s t,
        (r.fga = .num 0 → r.points_per_shot = .nan ∧ r.fg3_rate = .nan) ∧
        (∀ q p : ℚ, r.fga = .num q → q ≠ 0 → r.points = .num p →
          r.points_per_shot = .num (p / q))) ∧
    (∀ rows : List PlayerRow, ∀ a ∈ get_team_data rows,
      (a.totalFga = 0 → a.totalFgm = 0 → a.fgPct = .num 0) ∧
      (a.totalFga = 0 → 0 < a.totalFgm → a.fgPct = .inf)) ∧
    (∀ rows : List PlayerRow, (∀ r ∈ rows, 0 ≤ r.fgm ∧ r.fgm ≤ r.fga) →
      ∀ a ∈ get_team_data rows, a.totalFga ≠ 0 →
        ∃ q : ℚ, a.fgPct = .num q ∧ 0 ≤ q ∧ q ≤ 1) := by
  refine ⟨?_, ?_, ?_⟩
  · intro df s t r hr
    obtain ⟨r₀, hr₀, rfl⟩ := List.mem_map.mp hr
    refine ⟨?_, ?_⟩
    · intro hfga
      rw [prepRow_fga] at hfga
      rw [prepRow_points_per_shot, prepRow_fg3_rate, hfga]
      exact ⟨safe_div_num_zero _, safe_div_num_zero _⟩
    · intro q p hfga hq hpts
      rw [prepRow_fga] at hfga
      rw [prepRow_points] at hpts
      rw [prepRow_points_per_shot, hfga, hpts]
      exact safe_div_num_num p q hq
  · intro rows a ha
    obtain ⟨k, hk, rfl⟩ := List.mem_map.mp ha
    rw [mkTeamAgg_totalFga, mkTeamAgg_totalFgm, mkTeamAgg_fgPct]
    refine ⟨?_, ?_⟩
    · intro hfga hfgm
      rw [hfga, hfgm]
      simp [pdivRat, fillna]
    · intro hfga hfgm
      rw [hfga]
      simp [pdivRat, fillna, hfgm, ne_of_gt hfgm]
  · intro rows hbound a ha hfga
    obtain ⟨k, hk, rfl⟩ := List.mem_map.mp ha
    rw [mkTeamAgg_totalFga] at hfga
    rw [mkTeamAgg_fgPct]
    have hsub : ∀ r ∈ groupRows rows k, r ∈ rows := by
      intro r hr
      exact List.mem_of_mem_filter hr
    have hnum0 : 0 ≤ sumQ (fun r => r.fgm) (groupRows rows k) := by
      apply List.sum_nonneg
      intro x hx
      obtain ⟨r, hr, rfl⟩ := List.mem_map.mp hx
      exact (hbound r (hsub r hr)).1
    have hle : sumQ (fun r => r.fgm) (groupRows rows k) ≤
        sumQ (fun r => r.fga) (groupRows rows k) := by
      apply List.sum_le_sum
      intro r hr
      exact (hbound r (hsub r hr)).2
    have hden : 0 < sumQ (fun r => r.fga) (groupRows rows k) :=
      lt_of_le_of_ne (le_trans hnum0 hle) (Ne.symm hfga)
    refine ⟨sumQ (fun r => r.fgm) (groupRows rows k)
        / sumQ (fun r => r.fga) (groupRows rows k), ?_, ?_, ?_⟩
    · rw [pdivRat, if_neg hfga]
      rfl
    · exact div_nonneg hnum0 (le_of_lt hden)
    · exact (div_le_one hden).mpr hle

/-- C1 witness: the clauses of `C1_ratio_sentinels` evaluated on concrete
frames. -/
theorem C1_ratio_sentinels_witness :
    ((_prepare_dataframe
        [{ team_id := TEAM_ID, team_name := "Philadelphia 76ers",
           team_abbreviation := "PHI", gp := some 10, g := some 10,
           fga_frequency := some 0, fgm := some 0, fga := some 0,
           fg_pct := none, efg_pct := none, fg2a_frequency := some 0,
           fg2m := some 0, fg2a := some 0, fg2_pct := none,
           fg3a_frequency := some 0, fg3m := some 0, fg3a := some 0,
           fg3_pct := none, shotClockRange := "24-22",
           generalRange := "Overall" }] "2024-25" "Regular Season").headI.points_per_shot
      = .nan) ∧
    (∃ q : ℚ, (get_team_data efgRows).headI.fgPct = .num q ∧ 0 ≤ q ∧ q ≤ 1) := by
  constructor
  · have hmem : (_prepare_dataframe
        [{ team_id := TEAM_ID, team_name := "Philadelphia 76ers",
           team_abbreviation := "PHI", gp := some 10, g := some 10,
           fga_frequency := some 0, fgm := some 0, fga := some 0,
           fg_pct := none, efg_pct := none, fg2a_frequency := some 0,
           fg2m := some 0, fg2a := some 0, fg2_pct := none,
           fg3a_frequency := some 0, fg3m := some 0, fg3a := some 0,
           fg3_pct := none, shotClockRange := "24-22",
           generalRange := "Overall" }] "2024-25" "Regular Season").headI ∈
      _prepare_dataframe
        [{ team_id := TEAM_ID, team_name := "Philadelphia 76ers",
           team_abbreviation := "PHI", gp := some 10, g := some 10,
           fga_frequency := some 0, fgm := some 0, fga := some 0,
           fg_pct := none, efg_pct := none, fg2a_frequency := some 0,
           fg2m := some 0, fg2a := some 0, fg2_pct := none,
           fg3a_frequency := some 0, fg3m := some 0, fg3a := some 0,
           fg3_pct := none, shotClockRange := "24-22",
           generalRange := "Overall" }] "2024-25" "Regular Season" := by
      simp [_prepare_dataframe]
    have hfga := ((C1_ratio_sentinels.1 _ "2024-25" "Regular Season" _ hmem).1 (by
      simp +decide [_prepare_dataframe, prepRow_fga, toNumeric]))
    exact hfga.1
  · refine C1_ratio_sentinels.2.2 efgRows ?_ _ ?_ ?_
    · intro r hr
      simp only [efgRows, List.mem_singleton] at hr
      rw [hr]
      norm_num [efgRows]
    · simp [get_team_data, teamKeys, efgRows, List.insertionSort, List.orderedInsert]
    · simp +decide [get_team_data, teamKeys, efgRows, mkTeamAgg, groupRows, sumQ,
        rowPoints, List.insertionSort, List.orderedInsert]

/-- The specification's aggregation scenario, first row: team A with 4 makes
on 10 attempts (no threes). -/
def specRowA : PlayerRow :=
  { playerId := 21, playerName := "P A", team := "ATL", range := "18-15",
    fgm := 4, fga := 10, fg3m := 0, fg3a := 0, fg2m := 4, fg2a := 10, gp := 1 }

/-- The specification's aggregation scenario, second row: team B with 3
makes on 5 attempts (no threes). -/
def specRowB : PlayerRow :=
  { playerId := 22, playerName := "P B", team := "BKN", range := "18-15",
    fgm := 3, fga := 5, fg3m := 0, fg3a := 0, fg2m := 3, fg2a := 5, gp := 1 }

/-- C2: on the specification's scenario (two rows of the same shot-clock
range with per-row eFG 0.40 and 0.60), the `team_by_range` aggregation of
`app.py` sums the counts correctly (FGM 7, FGA 15) but emits
`EFG_PCT = 50` — the arithmetic mean of the per-row ratios, scaled to
percent — which differs from the ratio recomputed from the summed
numerator and denominator, `100·(7 + 0.5·0)/15 = 46.6…`. -/
theorem C2_efg_mean_bug :
    (team_by_range (get_team_data [specRowA, specRowB])).map
        (fun r => (r.totalFgm, r.totalFga, r.efgPct)) =
      [((7 : ℚ), (15 : ℚ), PValue.num 50)] ∧
    PValue.num 50 ≠ pmul 100 (fillna 0 (pdivRat (7 + (1 / 2) * 0) 15)) := by
  constructor
  · have hteam : get_team_data [specRowA, specRowB] =
        [mkTeamAgg [specRowA, specRowB] ("ATL", "18-15"),
         mkTeamAgg [specRowA, specRowB] ("BKN", "18-15")] := by
      have hKLE : teamKeyLE ("ATL", "18-15") ("BKN", "18-15") := by
        unfold teamKeyLE
        left
        decide
      simp +decide [get_team_data, teamKeys, specRowA, specRowB,
        List.insertionSort, List.orderedInsert, hKLE]
    have hA : mkTeamAgg [specRowA, specRowB] ("ATL", "18-15") =
        { team := "ATL", range := "18-15", totalFgm := 4, totalFga := 10,
          totalFg3m := 0, totalFg3a := 0, totalFg2m := 4, totalFg2a := 10,
          totalPoints := 8, numPlayers := 1, totalGp := 1,
          fgPct := .num (2 / 5), fg3Pct := .num 0, efgPct := .num (2 / 5),
          ptsPerFga := .num (4 / 5) } := by
      norm_num +decide [mkTeamAgg, groupRows, sumQ, rowPoints, specRowA, specRowB,
        pdivRat, fillna]
    have hB : mkTeamAgg [specRowA, specRowB] ("BKN", "18-15") =
        { team := "BKN", range := "18-15", totalFgm := 3, totalFga := 5,
          totalFg3m := 0, totalFg3a := 0, totalFg2m := 3, totalFg2a := 5,
          totalPoints := 6, numPlayers := 1, totalGp := 1,
          fgPct := .num (3 / 5), fg3Pct := .num 0, efgPct := .num (3 / 5),
          ptsPerFga := .num (6 / 5) } := by
      norm_num +decide [mkTeamAgg, groupRows, sumQ, rowPoints, specRowA, specRowB,
        pdivRat, fillna]
    rw [hteam, hA, hB]
    have hpm : pmean [PValue.num (2 / 5), PValue.num (3 / 5)] = PValue.num (1 / 2) := by
      have c1 : ([PValue.num (2 / 5), PValue.num (3 / 5)].contains PValue.inf) = false := by
        decide
      have c2 : ([PValue.num (2 / 5), PValue.num (3 / 5)].contains PValue.ninf) = false := by
        decide
      simp only [pmean, c1, c2, Bool.false_and, Bool.and_false, if_false,
        Bool.false_eq_true, List.filterMap]
      norm_num
    simp +decide [team_by_range, rangeKeys, pmul, pdivRat, fillna,
      List.insertionSort, List.orderedInsert, hpm]
    norm_num
  · simp only [pdivRat, fillna, pmul]
    norm_num

/-- Helper: the scraper's partition loop keeps the delay invariant from any
safe starting state. -/
theorem delaysOk_scrapeTrace_aux (ps : List (String × Bool)) :
    ∀ (seen : Bool) (acc : ℚ), (seen = false ∨ 2 ≤ acc) →
      delaysOkAux 2 seen acc (scrapeMainTrace ps) = true := by
  induction ps with
  | nil =>
    intro seen acc _
    rfl
  | cons p ps ih =>
    intro seen acc h
    have hcond : (seen && decide (acc < 2)) = false := by
      rcases h with h | h
      · rw [h, Bool.false_and]
      · rw [decide_eq_false (not_lt.mpr h), Bool.and_false]
    show delaysOkAux 2 seen acc
      (Event.fetch p.1 :: Event.sleep 2 :: scrapeMainTrace ps) = true
    simp only [delaysOkAux, hcond, Bool.false_eq_true, if_false]
    exact ih true (0 + 2) (Or.inr (by norm_num))

/-- Helper: the extraction loop keeps the delay invariant as long as every
fetch succeeds. -/
theorem delaysOk_extractionTrace_aux :
    ∀ (teams : List (String × Bool)) (seen : Bool) (acc : ℚ),
      (∀ t ∈ teams, t.2 = true) → (seen = false ∨ 3 / 2 ≤ acc) →
      delaysOkAux (3 / 2) seen acc (dataExtractionTrace teams) = true := by
  intro teams
  induction teams with
  | nil =>
    intro seen acc _ _
    rfl
  | cons t ts ih =>
    intro seen acc hall h
    have ht : t.2 = true := hall t (List.mem_cons_self t ts)
    have hcond : (seen && decide (acc < 3 / 2)) = false := by
      rcases h with h | h
      · rw [h, Bool.false_and]
      · rw [decide_eq_false (not_lt.mpr h), Bool.and_false]
    have htr : dataExtractionTrace (t :: ts) =
        Event.fetch t.1 :: Event.sleep (3 / 2) :: dataExtractionTrace ts := by
      simp [dataExtractionTrace, ht]
    rw [htr]
    simp only [delaysOkAux, hcond, Bool.false_eq_true, if_false]
    exact ih true (0 + 3 / 2) (fun x hx => hall x (List.mem_cons_of_mem t hx))
      (Or.inr (by norm_num))

/-- C8 counterexample: in the shot-chart extraction script, when the first
team's fetch raises, the 1.5-second sleep inside the `try` block is skipped,
so the next fetch follows with no delay at all — the delay is *not*
independent of success/failure. -/
theorem C8_counterexample :
    delaysOk (3 / 2)
      (dataExtractionTrace [("Atlanta Hawks", false), ("Boston Celtics", true)]) = false := by
  have h : decide ((0 : ℚ) < 3 / 2) = true := decide_eq_true (by norm_num)
  show delaysOkAux (3 / 2) false 0
    [Event.fetch "Atlanta Hawks", Event.fetch "Boston Celtics",
      Event.sleep (3 / 2)] = false
  simp only [delaysOkAux, Bool.false_and, Bool.false_eq_true, if_false, h,
    Bool.true_and, if_true]

/-- C8 (amended): the scraper's partition loop (`main` of
`scrape_shotclock_data.py`) always separates consecutive partition attempts
by at least its 2-second sleep, whatever each attempt's outcome; the team
loop of `data_extraction.py` guarantees its 1.5-second separation only when
every fetch succeeds (a failed fetch skips the sleep). -/
theorem C8_rate_limit :
    (∀ partitions : List (String × Bool),
      delaysOk 2 (scrapeMainTrace partitions) = true) ∧
    (∀ teams : List (String × Bool), (∀ t ∈ teams, t.2 = true) →
      delaysOk (3 / 2) (dataExtractionTrace teams) = true) := by
  constructor
  · intro ps
    exact delaysOk_scrapeTrace_aux ps false 0 (Or.inl rfl)
  · intro teams hall
    exact delaysOk_extractionTrace_aux teams false 0 hall (Or.inl rfl)

/-- C8 witness: both clauses of `C8_rate_limit` at concrete loops. -/
theorem C8_rate_limit_witness :
    delaysOk 2 (scrapeMainTrace [("24-22", true), ("22-18", false)]) = true ∧
    delaysOk (3 / 2) (dataExtractionTrace [("Atlanta Hawks", true)]) = true :=
  ⟨C8_rate_limit.1 [("24-22", true), ("22-18", false)],
    C8_rate_limit.2 [("Atlanta Hawks", true)] (by decide)⟩

/-- Every row the fetch loop keeps carries the configured team id. -/
theorem collectFrames_team_id (responses : List (String × String × List ApiRow)) :
    ∀ r ∈ collectFrames responses, r.team_id = TEAM_ID := by
  induction responses with
  | nil =>
    intro r hr
    simp [collectFrames] at hr
  | cons p ps ih =>
    intro r hr
    have hstep : collectFrames (p :: ps) =
        (let filtered := p.2.2.filter (fun r => r.team_id == TEAM_ID)
        if filtered.isEmpty then collectFrames ps
        else (filtered.map (fun r =>
          { toApiRow := r, shotClockRange := p.2.1, generalRange := p.1 })) ++
            collectFrames ps) := rfl
    rw [hstep] at hr
    by_cases he : (p.2.2.filter (fun r => r.team_id == TEAM_ID)).isEmpty
    · rw [if_pos he] at hr
      exact ih r hr
    · rw [if_neg he] at hr
      rcases List.mem_append.mp hr with hm | hm
      · obtain ⟨r₀, hr₀, rfl⟩ := List.mem_map.mp hm
        have hkeep := List.of_mem_filter hr₀
        have h₀ : r₀.team_id = TEAM_ID := eq_of_beq hkeep
        exact h₀
      · exact ih r hm

/-- C9: every row `fetch_shot_clock_breakdown` returns belongs to the
configured team 1610612755 — other teams' rows are filtered out of each
partition response — and responses containing no row of that team
contribute nothing to the collected frames. -/
theorem C9_single_team_invariant :
    (∀ (season season_type : String)
        (responses : List (String × String × List ApiRow))
        (out : List PreparedRow),
      fetch_shot_clock_breakdown season season_type responses = .ok out →
      ∀ r ∈ out, r.team_id = TEAM_ID) ∧
    (∀ responses : List (String × String × List ApiRow),
      (∀ p ∈ responses, ∀ row ∈ p.2.2, row.team_id ≠ TEAM_ID) →
      collectFrames responses = []) := by
  constructor
  · intro season season_type responses out hok
    unfold fetch_shot_clock_breakdown at hok
    by_cases he : (collectFrames responses).isEmpty
    · rw [if_pos he] at hok
      cases hok
    · rw [if_neg he] at hok
      injection hok with h
      subst h
      intro r hr
      simp only [_prepare_dataframe] at hr
      obtain ⟨r₀, hr₀, rfl⟩ := List.mem_map.mp hr
      rw [prepRow_team_id]
      exact collectFrames_team_id responses r₀ hr₀
  · intro responses hnone
    induction responses with
    | nil => rfl
    | cons p ps ih =>
      have hfe : p.2.2.filter (fun r => r.team_id == TEAM_ID) = [] := by
        rw [List.filter_eq_nil_iff]
        intro row hrow
        have := hnone p (List.mem_cons_self p ps) row hrow
        simp [this]
      have hstep : collectFrames (p :: ps) =
          (let filtered := p.2.2.filter (fun r => r.team_id == TEAM_ID)
          if filtered.isEmpty then collectFrames ps
          else (filtered.map (fun r =>
            { toApiRow := r, shotClockRange := p.2.1, generalRange := p.1 })) ++
              collectFrames ps) := rfl
      rw [hstep]
      simp only [hfe, List.isEmpty_nil, if_true]
      exact ih (fun q hq => hnone q (List.mem_cons_of_mem p hq))

/-- An upstream row of the configured team. -/
def rowPHI : ApiRow :=
  { team_id := TEAM_ID, team_name := "Philadelphia 76ers",
    team_abbreviation := "PHI", gp := some 10, g := some 10,
    fga_frequency := some 0, fgm := some 5, fga := some 10, fg_pct := some 0,
    efg_pct := some 0, fg2a_frequency := some 0, fg2m := some 3,
    fg2a := some 6, fg2_pct := some 0, fg3a_frequency := some 0,
    fg3m := some 2, fg3a := some 4, fg3_pct := some 0 }

/-- An upstream row of a different team, to be filtered out. -/
def rowOther : ApiRow :=
  { rowPHI with
    team_id := 1610612738
    team_name := "Boston Celtics"
    team_abbreviation := "BOS" }

/-- C9 witness: both clauses of `C9_single_team_invariant` on a concrete
pair of responses. -/
theorem C9_single_team_invariant_witness :
    (∀ r ∈ _prepare_dataframe (collectFrames [("Overall", "24-22", [rowPHI, rowOther])])
        "2024-25" "Regular Season", r.team_id = TEAM_ID) ∧
    collectFrames [("Overall", "24-22", [rowOther])] = [] :=
  ⟨C9_single_team_invariant.1 "2024-25" "Regular Season"
      [("Overall", "24-22", [rowPHI, rowOther])] _ rfl,
    C9_single_team_invariant.2 [("Overall", "24-22", [rowOther])] (by decide)⟩

/-- A partition page on which every strategy comes up empty. -/
def emptyPage : Page :=
  { tables := [], apiResponses := [], embedded := none, soupTables := [] }

/-- C6 counterexample: when every partition fails, the scraper's `main`
returns `None` (after printing a message) — a null result, not an
exception. -/
theorem C6_counterexample :
    scrapeMain [("24-22", emptyPage, none)] = none := rfl

/-- C6 (amended): the direct-API pipeline `fetch_shot_clock_breakdown`
raises `NBAStatsError` exactly when zero partitions contribute rows, and
otherwise returns the prepared concatenation of the successful partitions'
rows; the scraper script's `main`, by contrast, returns `None` when zero
partitions succeed and the concatenation of the accepted frames when at
least one does. -/
theorem C6_total_failure :
    (∀ (season season_type : String)
        (responses : List (String × String × List ApiRow)),
      (∃ e, fetch_shot_clock_breakdown season season_type responses = .error e) ↔
        collectFrames responses = []) ∧
    (∀ partitions : List (String × Page × Option Frame),
      scrapeMain partitions = none ↔
        ∀ p ∈ partitions, partitionResult p = none) ∧
    (∀ partitions : List (String × Page × Option Frame),
      (∃ p ∈ partitions, partitionResult p ≠ none) →
      scrapeMain partitions =
        some (concatFrames (partitions.filterMap partitionResult))) := by
  refine ⟨?_, ?_, ?_⟩
  · intro season season_type responses
    unfold fetch_shot_clock_breakdown
    by_cases he : (collectFrames responses).isEmpty
    · rw [if_pos he]
      rw [List.isEmpty_iff] at he
      exact iff_of_true ⟨_, rfl⟩ he
    · rw [if_neg he]
      rw [List.isEmpty_iff] at he
      constructor
      · rintro ⟨e, hebad⟩
        cases hebad
      · intro hnil
        exact absurd hnil he
  · intro ps
    simp only [scrapeMain]
    by_cases he : (ps.filterMap partitionResult).isEmpty
    · rw [if_pos he]
      rw [List.isEmpty_iff, List.filterMap_eq_nil_iff] at he
      exact iff_of_true rfl he
    · rw [if_neg he]
      rw [List.isEmpty_iff, List.filterMap_eq_nil_iff] at he
      constructor
      · intro h
        cases h
      · intro hall
        exact absurd hall he
  · intro ps hex
    simp only [scrapeMain]
    rw [if_neg ?_]
    rw [List.isEmpty_iff, List.filterMap_eq_nil_iff]
    rcases hex with ⟨p, hp, hne⟩
    intro hall
    exact hne (hall p hp)

/-- A frame a successful partition could collect. -/
def frameEx : Frame :=
  { cols := ["PLAYER", "FGM", "FGA", "PTS"], text := "player fgm fga pts", nRows := 12 }

/-- C6 witness: `C6_total_failure` applied to a run with one successful
partition (direct-API fallback supplies the frame). -/
theorem C6_total_failure_witness :
    scrapeMain [("24-22", emptyPage, some frameEx)] =
      some (concatFrames
        ([("24-22", emptyPage, some frameEx)].filterMap partitionResult)) :=
  C6_total_failure.2.2 [("24-22", emptyPage, some frameEx)]
    ⟨("24-22", emptyPage, some frameEx), by decide, by decide⟩

/-- A qualifying stats table with 12 rows, listed first on the page. -/
def tableSmall : RenderedTable :=
  { text := "player fgm fga pts", rowCount := 12,
    parsed := { cols := ["PLAYER", "FGM", "FGA", "PTS"],
                text := "player fgm fga pts", nRows := 12 } }

/-- A qualifying stats table with 100 rows, listed second. -/
def tableBig : RenderedTable :=
  { text := "player fgm fga pts assists", rowCount := 100,
    parsed := { cols := ["PLAYER", "FGM", "FGA", "PTS"],
                text := "player fgm fga pts assists", nRows := 100 } }

/-- C7 counterexample: when two tables both qualify as stats tables, the
rendered-table strategy selects the *first* one in document order (12 rows),
not the one with the most rows (100 rows); the most-rows preference only
exists in the fallback used when no table qualifies. -/
theorem C7_counterexample :
    isStatsTable tableSmall = true ∧ isStatsTable tableBig = true ∧
    tableSmall.rowCount < tableBig.rowCount ∧
    strategy1 [tableSmall, tableBig] = some tableSmall.parsed ∧
    tableSmall.parsed ≠ tableBig.parsed := by
  decide

/-- C7 (amended): a table is classified as "stats" iff its text contains a
stat-column token, contains no calendar token, and has more than 10 rows;
when several tables qualify, the strategy selects the *first* qualifying
table in document order (the largest table is preferred only by the fallback
that runs when no table qualifies). -/
theorem C7_table_classification :
    (∀ t : RenderedTable,
      isStatsTable t = true ↔
        ((∃ tok ∈ statsIndicators, substrB tok (pyLower t.text) = true) ∧
          (∀ tok ∈ calendarIndicators, substrB tok (pyLower t.text) = false) ∧
          10 < t.rowCount)) ∧
    (∀ tables : List RenderedTable,
      tables.find? isStatsTable = (tables.filter isStatsTable).head?) := by
  constructor
  · intro t
    rw [isStatsTable]
    simp only [Bool.and_eq_true, List.any_eq_true, Bool.not_eq_true',
      List.any_eq_false, decide_eq_true_eq, Bool.not_eq_true, and_assoc]
  · intro tables
    induction tables with
    | nil => rfl
    | cons a l ih =>
      by_cases h : isStatsTable a = true
      · rw [List.find?_cons_of_pos _ h, List.filter_cons_of_pos h, List.head?_cons]
      · rw [Bool.not_eq_true] at h
        rw [List.find?_cons_of_neg _ (by simp [h]),
          List.filter_cons_of_neg (by simp [h]), ih]

/-- A rendered table whose payload text contains the cup marker "cup"
alongside the word "regular". -/
def cupTable : RenderedTable :=
  { text := "player fgm fga pts nba regular season teamcup",
    rowCount := 12,
    parsed := { cols := ["PLAYER", "FGM", "FGA", "PTS"],
                text := "player fgm fga pts nba regular season teamcup",
                nRows := 12 } }

/-- A page whose rendered-table strategy yields `cupTable`. -/
def cupPage : Page :=
  { tables := [cupTable], apiResponses := [], embedded := none,
    soupTables := [] }

/-- C3 counterexample: a fetched result whose payload text contains the cup
marker "cup" is accepted into the scraper's output — the rendered-table
strategy performs no cup check at all, and `main`'s final check waives its
"cup and nba" test whenever the payload also mentions "regular". -/
theorem C3_counterexample :
    substrB ("cup") (pyLower cupTable.parsed.text) = true ∧
    scrapeMain [("24-22", cupPage, none)] = some (concatFrames [cupTable.parsed]) := by
  decide

/-- C3 (amended): any frame the network-interception strategy accepts comes
from one of the three most recent captured responses and passed every
guard: no cup marker occurs in its URL, its `SeasonType` parameter (when
present) does not contain "cup", its body held more than 10 rows, and its
payload text does not contain "cup" and "nba" together. -/
theorem C3_cup_guard :
    ∀ (resps : List ApiResp) (f : Frame), strategy2 resps = some f →
      ∃ r ∈ resps.take 3,
        (∀ m ∈ cupUrlMarkers, substrB m (pyLower r.url) = false) ∧
        (∀ v, r.seasonTypeParam = some v → substrB ("cup") (pyLower v) = false) ∧
        (∃ g, r.frame = some g ∧ 10 < g.nRows ∧
          (substrB ("cup") (pyLower g.text) && substrB ("nba") (pyLower g.text)) = false ∧
          f = g) := by
  intro resps f hs2
  obtain ⟨r, hr, hone⟩ := List.exists_of_findSome?_eq_some hs2
  refine ⟨r, hr, ?_⟩
  simp only [strategy2One] at hone
  by_cases hcup : (cupUrlMarkers.any fun m => substrB m (pyLower r.url)) = true
  · rw [if_pos hcup] at hone
    cases hone
  · rw [if_neg hcup] at hone
    rw [Bool.not_eq_true, List.any_eq_false] at hcup
    refine ⟨fun m hm => by simpa using hcup m hm, ?_⟩
    have hframe : ∀ g' : Frame,
        (match r.frame with
          | none => none
          | some f =>
            if decide (10 < f.nRows) = true then
              if (substrB ("cup") (pyLower f.text) &&
                  substrB ("nba") (pyLower f.text)) = true then
                none
              else some f
            else none) = some g' →
        ∃ g, r.frame = some g ∧ 10 < g.nRows ∧
          (substrB ("cup") (pyLower g.text) && substrB ("nba") (pyLower g.text)) = false ∧
          g' = g := by
      intro g' hm
      cases hf : r.frame with
      | none =>
        simp only [hf] at hm
        cases hm
      | some g =>
        simp only [hf] at hm
        refine ⟨g, rfl, ?_⟩
        by_cases hn : (10 : Nat) < g.nRows
        · rw [if_pos (by simpa using hn)] at hm
          refine ⟨hn, ?_⟩
          by_cases hcn : (substrB ("cup") (pyLower g.text) &&
              substrB ("nba") (pyLower g.text)) = true
          · rw [if_pos hcn] at hm
            cases hm
          · rw [if_neg hcn] at hm
            rw [Bool.not_eq_true] at hcn
            injection hm with hfg
            exact ⟨hcn, hfg.symm⟩
        · rw [if_neg (by simpa using hn)] at hm
          cases hm
    cases hsp : r.seasonTypeParam with
    | none =>
      simp only [hsp] at hone
      refine ⟨?_, ?_⟩
      · intro v hv
        cases hv
      by_cases hreg : (regularUrlMarkers.any fun m => substrB m (pyLower r.url)) = true
      · rw [hreg] at hone
        simp only [Bool.not_true, Bool.false_eq_true, if_false] at hone
        exact hframe f hone
      · rw [Bool.not_eq_true] at hreg
        rw [hreg] at hone
        simp only [Bool.not_false, if_true] at hone
        cases hone
    | some v =>
      simp only [hsp] at hone
      by_cases hcv : substrB ("cup") (pyLower v) = true
      · rw [if_pos hcv] at hone
        simp only [Bool.not_false, if_true] at hone
        cases hone
      · rw [if_neg hcv] at hone
        rw [Bool.not_eq_true] at hcv
        refine ⟨?_, ?_⟩
        · intro w hw
          injection hw with hwv
          rw [← hwv]
          exact hcv
        by_cases hrv : substrB ("regular") (pyLower v) = true
        · rw [if_pos hrv] at hone
          simp only [Bool.not_true, Bool.false_eq_true, if_false] at hone
          exact hframe f hone
        · rw [if_neg hrv] at hone
          simp only [Bool.not_false, if_true] at hone
          cases hone

/-- A clean captured response: regular-season URL and parameter, cup-free
payload. -/
def okResp : ApiResp :=
  { url := "https://stats.nba.com/stats/leaguedashplayerptshot?SeasonType=Regular+Season",
    seasonTypeParam := some "regular season",
    frame := some frameEx }

/-- C3 witness: `C3_cup_guard` applied to a concrete accepted response. -/
theorem C3_cup_guard_witness :
    strategy2 [okResp] = some frameEx ∧
    ∃ r ∈ [okResp].take 3,
      (∀ m ∈ cupUrlMarkers, substrB m (pyLower r.url) = false) ∧
      (∀ v, r.seasonTypeParam = some v → substrB ("cup") (pyLower v) = false) ∧
      (∃ g, r.frame = some g ∧ 10 < g.nRows ∧
        (substrB ("cup") (pyLower g.text) && substrB ("nba") (pyLower g.text)) = false ∧
        frameEx = g) :=
  ⟨by decide, C3_cup_guard [okResp] frameEx (by decide)⟩

end ShotClock
